import Mathlib

/-!
Verification of the Budget Advisory System's transaction/budget consistency core.

The development shallowly embeds the Python modules `transactions.py`, `budget.py`,
`accounts.py` and the relevant parts of `utils.py` into Lean: the MySQL tables become
lists of records inside a `State` structure, each mutating method becomes a pure
function `State → ... → State`, monetary amounts (Python floats/Decimals) become
rationals, and the interactive prompts become explicit parameters (the value the
prompt would have produced, or a Boolean confirmation flag).  Name-to-id resolution
performed through interactive disambiguation menus is abstracted to the resolved id,
with the raw name kept wherever the code stores or parses it (transfer notes).
-/

namespace BAS

/-- Alert outcome of the budget-alert evaluation in `budget.py`
(`check_budget_alerts`): within budget, nearing, or exceeded. -/
inductive Alert where
  | noalert
  | nearing
  | exceeded
  deriving DecidableEq, Repr

/-- Embeds `budget.py` `check_budget_alerts` (lines 196-205): with
`alert_threshold = monthly_limit * 0.9`, the code first tests
`updated_spent >= alert_threshold` (nearing), `elif updated_spent > monthly_limit`
(exceeded), else prints the within-budget message. -/
def check_budget_alerts (monthly_limit updated_spent : Rat) : Alert :=
  let alert_threshold := monthly_limit * (9 / 10)
  if alert_threshold ≤ updated_spent then Alert.nearing
  else if monthly_limit < updated_spent then Alert.exceeded
  else Alert.noalert

/-- One row of the `accounts` table (`initial_balance` is the live balance). -/
structure Account where
  account_id : Nat
  account_name : String
  initial_balance : Rat
  account_type : String
  deriving DecidableEq, Repr

/-- One row of the `budgets` table. -/
structure Budget where
  budget_id : Nat
  category_id : Nat
  monthly_limit : Rat
  spent : Rat
  deriving DecidableEq, Repr

/-- One row of the `transactions` table; the date is kept as year/month (the only
components the embedded queries inspect). -/
structure Txn where
  transaction_id : Nat
  account_id : Nat
  category_id : Option Nat
  transaction_type : String
  amount : Rat
  notes : String
  date_year : Nat
  date_month : Nat
  deriving DecidableEq, Repr

/-- The persistent store: the three tables plus the ids of the known expense
categories (the slice of `categories.py` the embedded operations consult). -/
structure State where
  accounts : List Account
  transactions : List Txn
  budgets : List Budget
  expense_category_ids : List Nat
  deriving DecidableEq, Repr

/-- Lowercase an ASCII character, as Python `str.lower`/`str.casefold` do on the
ASCII names used here. -/
def lowerChar (c : Char) : Char :=
  if 65 ≤ c.toNat ∧ c.toNat ≤ 90 then Char.ofNat (c.toNat + 32) else c

/-- Python `s.lower()` / `s.casefold()` on ASCII strings. -/
def pyLower (s : String) : String := String.mk (s.data.map lowerChar)

/-- Python `notes.split(":")[0]`: the text before the first colon (the whole string
when there is none). -/
def splitHead (s : String) : String :=
  String.mk (s.data.takeWhile fun c => ¬ c = ':')

/-- Containment helper over character lists for Python's `pat in s`. -/
def subListIn (pat : List Char) : List Char → Bool
  | [] => pat.isEmpty
  | c :: tl => pat.isPrefixOf (c :: tl) || subListIn pat tl

/-- Python `pat in s` (substring containment). -/
def strIn (pat s : String) : Bool := subListIn pat.data s.data

/-- Fuel-driven worker for `strDrop`; the fuel is the length of the scanned list, and
each step consumes at least one character. -/
def dropPatAux : Nat → List Char → List Char → List Char
  | 0, l, _ => l
  | _ + 1, [], _ => []
  | fuel + 1, c :: tl, pat =>
    if ¬ pat = [] ∧ pat.isPrefixOf (c :: tl) then dropPatAux fuel ((c :: tl).drop pat.length) pat
    else c :: dropPatAux fuel tl pat

/-- Python `s.replace(pat, "")`: delete every occurrence of `pat` in `s`. -/
def strDrop (s pat : String) : String :=
  String.mk (dropPatAux s.data.length s.data pat.data)

/-- Python `s.strip()`: drop whitespace from both ends. -/
def strTrim (s : String) : String :=
  String.mk (((s.data.dropWhile Char.isWhitespace).reverse.dropWhile
    Char.isWhitespace).reverse)

/-- SQL `notes LIKE 'pat%'`: prefix match (the patterns built by the code place the
single wildcard at the end). -/
def likeMatch (pat s : String) : Bool := pat.data.isPrefixOf s.data

/-- SQL `SELECT initial_balance FROM accounts WHERE account_id = aid` (first row). -/
def balanceOf (accounts : List Account) (aid : Nat) : Option Rat :=
  (accounts.find? fun a => a.account_id == aid).map Account.initial_balance

/-- SQL `UPDATE accounts SET initial_balance = initial_balance + delta
WHERE account_id = aid`. -/
def creditBalance (accounts : List Account) (aid : Nat) (delta : Rat) : List Account :=
  accounts.map fun a =>
    if a.account_id = aid then { a with initial_balance := a.initial_balance + delta } else a

/-- The `account_id_to_name` map of `accounts.py` (`{account_id: account_name}`),
read at one id. -/
def account_id_to_name (accounts : List Account) (aid : Nat) : Option String :=
  (accounts.find? fun a => a.account_id == aid).map Account.account_name

/-- The `account_name_to_id` map of `accounts.py` (`{account_name.casefold(): id}`),
read at one (already casefolded) name; a later duplicate name overwrites an earlier
one in the Python dict, hence the reversed search. -/
def account_name_to_id (accounts : List Account) (nm : String) : Option Nat :=
  (accounts.reverse.find? fun a => pyLower a.account_name == pyLower nm).map
    Account.account_id

/-- Embeds `budget.py` `update_budget_after_transaction` (lines 156-183), with the
category name already resolved to its id (`get_category_id_by_name`).  When the
category has no budget the method prints and returns; otherwise it writes
`spent = budget["spent"] + amount` at that budget's `budget_id`.  The in-memory
`self.budgets` dict is keyed by `category_id`, so with duplicate rows the last
loaded row is the one read: hence `getLast?` on the matching rows. -/
def update_budget_after_transaction (s : State) (category_id : Nat) (amount : Rat) :
    State :=
  match (s.budgets.filter fun b => b.category_id == category_id).getLast? with
  | none => s
  | some b =>
    { s with budgets := s.budgets.map fun b0 =>
        if b0.budget_id = b.budget_id then { b0 with spent := b.spent + amount } else b0 }

/-- Embeds `transactions.py` `add_transaction` (the income/expense path; the transfer
input is delegated to `transfer_funds`).  The interactive account and category menus
are abstracted to the resolved `account_id`/`category_id`; `amount` is the value
returned by `get_float("Enter amount: ", min_value=0.01)`; `new_id` is the
auto-increment id of the inserted row.  Validation order, as in the code: transaction
type, account lookup (`old_amount` is the cached balance), the expense-only
zero-or-negative-balance check, then after the amount prompt the expense-only
insufficient-funds check; only then the INSERT, the balance UPDATE and, for an
expense, the budget delta. -/
def add_transaction (s : State) (transaction_type : String) (account_id category_id : Nat)
    (amount : Rat) (notes : String) (y m : Nat) (new_id : Nat) : State :=
  if ¬ (transaction_type = "income" ∨ transaction_type = "expense") then s
  else
    match balanceOf s.accounts account_id with
    | none => s
    | some old_amount =>
      if old_amount ≤ 0 ∧ transaction_type = "expense" then s
      else if old_amount < amount ∧ transaction_type = "expense" then s
      else
        let row : Txn :=
          { transaction_id := new_id, account_id := account_id,
            category_id := some category_id,
            transaction_type := if transaction_type = "income" then "Income" else "Expense",
            amount := amount, notes := notes, date_year := y, date_month := m }
        let s1 : State := { s with transactions := s.transactions ++ [row] }
        if transaction_type = "income" then
          { s1 with accounts := creditBalance s1.accounts account_id amount }
        else
          let s2 : State :=
            { s1 with accounts := creditBalance s1.accounts account_id (-amount) }
          update_budget_after_transaction s2 category_id amount

/-- Outcome of the notes-parsing step shared by the transfer branches of
`delete_transaction` and by `update_transfer_funds`. -/
structure TransferLegs where
  source_id : Option Nat
  dest_id : Option Nat
  dest_name : String
  deriving DecidableEq, Repr

/-- Embeds the notes parsing of `transactions.py` lines 288-297 (and the identical
lines 462-471): split the notes at ":", then recover the counterparty from the
`Transfer to <name>` / `Transfer from <name>` text of the first part.  A missing
id-to-name entry leaves Python's `None`, which later string-formats as "None". -/
def parse_transfer_legs (s : State) (t : Txn) : TransferLegs :=
  let head := splitHead t.notes
  if strIn "Transfer to" head then
    let dest_name := strTrim (strDrop head "Transfer to ")
    { source_id := some t.account_id, dest_id := account_name_to_id s.accounts dest_name,
      dest_name := dest_name }
  else
    let source_name := strTrim (strDrop head "Transfer from ")
    { source_id := account_name_to_id s.accounts source_name, dest_id := some t.account_id,
      dest_name := (account_id_to_name s.accounts t.account_id).getD "None" }

/-- Embeds the transfer branch of `transactions.py` `delete_transaction`
(lines 286-321) plus the unconditional delete-by-id at line 326.  `confirm2` is the
second interactive confirmation demanded when the destination-balance warning fires.
After the balance adjustments (source minus the selected row's signed amount,
destination plus it) the code LIKE-deletes the rows of both legs and finally deletes
the selected row by its own id. -/
def delete_transfer (s : State) (t : Txn) (confirm2 : Bool) : State :=
  let legs := parse_transfer_legs s t
  match legs.source_id, legs.dest_id with
  | some src, some dst =>
    match balanceOf s.accounts dst with
    | none => s
    | some dest_current_balance =>
      if (dest_current_balance ≤ 0 ∨ dest_current_balance < t.amount) ∧ ¬ confirm2 then s
      else
        let acc1 := creditBalance s.accounts src (-t.amount)
        let acc2 := creditBalance acc1 dst t.amount
        let account_name := (account_id_to_name s.accounts t.account_id).getD "None"
        let tx1 := s.transactions.filter fun r =>
          ! (r.account_id == src && likeMatch ("Transfer to " ++ legs.dest_name) r.notes)
        let tx2 := tx1.filter fun r =>
          ! (r.account_id == dst && likeMatch ("Transfer from " ++ account_name) r.notes)
        let tx3 := tx2.filter fun r => ! (r.transaction_id == t.transaction_id)
        { s with accounts := acc2, transactions := tx3 }
  | _, _ => s

/-- Embeds `transactions.py` `delete_transaction` (lines 251-330) for an already
selected row `t` of the listing; `confirm` is the first yes/no answer and `confirm2`
the override accepted when an insufficient-balance warning fires.  Income: reverse the
credit (with the warning gate); expense: reverse the debit and apply a negative budget
delta for the row's category; transfer: the dedicated branch; in every surviving path
the row itself is deleted by id at the end. -/
def delete_transaction (s : State) (t : Txn) (confirm confirm2 : Bool) : State :=
  if ¬ confirm then s
  else if pyLower t.transaction_type = "income" then
    match balanceOf s.accounts t.account_id with
    | none => s
    | some current_balance =>
      if (current_balance ≤ 0 ∨ current_balance < t.amount) ∧ ¬ confirm2 then s
      else
        let s1 : State := { s with accounts := creditBalance s.accounts t.account_id (-t.amount) }
        { s1 with transactions := s1.transactions.filter fun r =>
            ! (r.transaction_id == t.transaction_id) }
  else if pyLower t.transaction_type = "expense" then
    let s1 : State := { s with accounts := creditBalance s.accounts t.account_id t.amount }
    let s2 : State :=
      match t.category_id with
      | none => s1
      | some cid => update_budget_after_transaction s1 cid (-t.amount)
    { s2 with transactions := s2.transactions.filter fun r =>
        ! (r.transaction_id == t.transaction_id) }
  else if pyLower t.transaction_type = "transfer" then
    delete_transfer s t confirm2
  else
    { s with transactions := s.transactions.filter fun r =>
        ! (r.transaction_id == t.transaction_id) }

/-- Embeds `transactions.py` `transfer_funds` (lines 359-452).  The interactive
account pickers are abstracted to the resolved `source_id`/`dest_id` together with the
casefolded input names `source`/`dest` that the code embeds in the notes; `amount` is
the value returned by `get_float` (no `min_value` is passed there, so only Python
falsiness — the value 0 — is rejected by `if not amount`); `id1`/`id2` are the
auto-increment ids of the two inserted rows.  The sufficiency check re-reads the
source balance from the store. -/
def transfer_funds (s : State) (source dest : String) (source_id dest_id : Nat)
    (amount : Rat) (notes : String) (y m : Nat) (id1 id2 : Nat) : State :=
  if source_id = dest_id then s
  else if amount = 0 then s
  else
    match balanceOf s.accounts source_id with
    | none => s
    | some src_balance =>
      if src_balance < amount then s
      else
        let debit : Txn :=
          { transaction_id := id1, account_id := source_id, category_id := none,
            transaction_type := "Transfer", amount := -amount,
            notes := "Transfer to " ++ dest ++ ": " ++ notes,
            date_year := y, date_month := m }
        let credit : Txn :=
          { transaction_id := id2, account_id := dest_id, category_id := none,
            transaction_type := "Transfer", amount := amount,
            notes := "Transfer from " ++ source ++ ": " ++ notes,
            date_year := y, date_month := m }
        let acc1 := creditBalance s.accounts source_id (-amount)
        let acc2 := creditBalance acc1 dest_id amount
        { s with transactions := s.transactions ++ [debit, credit], accounts := acc2 }

/-- The retroactive seed computed by `budget.py` `add_budget` (lines 76-85): the SQL
`COALESCE(SUM(amount), 0)` over this category's rows with
`transaction_type = 'Expense'` whose date lies in year `y`, month `m`. -/
def seed_spent (txns : List Txn) (category_id : Nat) (y m : Nat) : Rat :=
  ((txns.filter fun t => t.category_id == some category_id
      && t.transaction_type == "Expense"
      && t.date_year == y && t.date_month == m).map Txn.amount).sum

/-- Embeds `budget.py` `add_budget` (lines 60-100), with the category name resolved
to `category_id` (the code only checks membership in the expense categories);
`monthly_limit` is the value of `get_float(..., min_value=0.01)`; `y`/`m` are the
current year and month; `new_budget_id` the auto-increment id.  The INSERT is
unconditional: the method never looks for an existing budget of the category. -/
def add_budget (s : State) (category_id : Nat) (monthly_limit : Rat) (y m : Nat)
    (new_budget_id : Nat) : State :=
  if ¬ category_id ∈ s.expense_category_ids then s
  else
    let spent := seed_spent s.transactions category_id y m
    { s with budgets := s.budgets ++
        [{ budget_id := new_budget_id, category_id := category_id,
           monthly_limit := monthly_limit, spent := spent }] }

/-- Embeds `transactions.py` `update_transfer_funds` (lines 454-525) for the selected
transfer row `t`.  `amount_input` is the raw text typed at the amount prompt
(`get_string` strips it; any non-empty remainder is a `str` and hits the
`isinstance(new_amount, str)` rejection, while a blank falls back to
`old_amount = abs(t.amount)`), `new_notes` the stripped notes entry, `new_y`/`new_m`
the effective date.  Both legs are then rewritten through `LIKE` prefix matches and
the two balances adjusted by `old_amount - new_amount` and its negation. -/
def update_transfer_funds (s : State) (t : Txn) (amount_input : String)
    (new_notes : String) (new_y new_m : Nat) : State :=
  let old_amount := |t.amount|
  let legs := parse_transfer_legs s t
  match legs.dest_id, legs.source_id with
  | some dst, some src =>
    if ¬ strTrim amount_input = "" then s
    else
      let new_amount := old_amount
      match balanceOf s.accounts src with
      | none => s
      | some sb =>
        if sb + |old_amount| < new_amount then s
        else
          let old_notes := t.notes
          let account_name := (account_id_to_name s.accounts t.account_id).getD "None"
          let toPat := "Transfer to " ++ legs.dest_name
          let fromPat := "Transfer from " ++ account_name
          let txns :=
            if ¬ new_notes = old_notes then
              (s.transactions.map fun r =>
                if r.account_id = src ∧ likeMatch toPat r.notes then
                  { r with
                    amount := -new_amount,
                    notes := "Transfer to " ++ legs.dest_name ++ ": " ++ new_notes,
                    date_year := new_y, date_month := new_m }
                else r).map fun r =>
                if r.account_id = dst ∧ likeMatch fromPat r.notes then
                  { r with
                    amount := new_amount,
                    notes := "Transfer from " ++ account_name ++ ": " ++ new_notes,
                    date_year := new_y, date_month := new_m }
                else r
            else
              (s.transactions.map fun r =>
                if r.account_id = src ∧ likeMatch toPat r.notes then
                  { r with amount := -new_amount, date_year := new_y, date_month := new_m }
                else r).map fun r =>
                if r.account_id = dst ∧ likeMatch fromPat r.notes then
                  { r with amount := new_amount, date_year := new_y, date_month := new_m }
                else r
          let acc1 := creditBalance s.accounts src (old_amount - new_amount)
          let acc2 := creditBalance acc1 dst (-old_amount + new_amount)
          { s with transactions := txns, accounts := acc2 }
  | _, _ => s

/-- Embeds `transactions.py` `update_transaction` (lines 143-249) for the selected
row `t`.  `amount_input` is the raw text at the amount prompt: the code computes
`new_amount = input(...).strip() or transaction["amount"]`, so any non-blank entry
stays a `str` and is rejected by the `isinstance` guard before any write, while a
blank keeps the current amount.  The category prompt is abstracted to its resolution
result `new_category_id` (income categories searched before expense ones);
`new_notes`, `new_y`, `new_m` are the effective notes and date.  A transfer row is
routed to `update_transfer_funds`. -/
def update_transaction (s : State) (t : Txn) (amount_input : String)
    (new_category_id : Option Nat) (new_notes : String) (new_y new_m : Nat) : State :=
  if ¬ t.transaction_type = "Transfer" then
    if ¬ strTrim amount_input = "" then s
    else
      let new_amount := t.amount
      let old_amount := t.amount
      let old_category_id := t.category_id
      match new_category_id with
      | none => s
      | some cid =>
        let txns := s.transactions.map fun r =>
          if r.transaction_id = t.transaction_id then
            { r with
              category_id := some cid, amount := new_amount, notes := new_notes,
              date_year := new_y, date_month := new_m }
          else r
        let s1 : State := { s with transactions := txns }
        if pyLower t.transaction_type = "expense" then
          let s2 : State :=
            { s1 with accounts :=
                creditBalance s1.accounts t.account_id (old_amount - new_amount) }
          if ¬ old_category_id = some cid then
            let sA : State := { s2 with budgets := s2.budgets.map fun b =>
                if (some b.category_id = old_category_id) then
                  { b with spent := b.spent - old_amount } else b }
            { sA with budgets := sA.budgets.map fun b =>
                if b.category_id = cid then { b with spent := b.spent + new_amount } else b }
          else
            { s2 with budgets := s2.budgets.map fun b =>
                if b.category_id = cid then
                  { b with spent := b.spent - old_amount + new_amount } else b }
        else
          { s1 with accounts :=
              creditBalance s1.accounts t.account_id (-old_amount + new_amount) }
  else
    update_transfer_funds s t amount_input new_notes new_y new_m

/-- Income total of one account over a transaction list (the Σincome of the balance
invariant). -/
def incomeSum (txns : List Txn) (aid : Nat) : Rat :=
  ((txns.filter fun t => t.account_id == aid && t.transaction_type == "Income").map
    Txn.amount).sum

/-- Expense total of one account over a transaction list (the Σexpense of the balance
invariant). -/
def expenseSum (txns : List Txn) (aid : Nat) : Rat :=
  ((txns.filter fun t => t.account_id == aid && t.transaction_type == "Expense").map
    Txn.amount).sum

/-- Spent value of the budget a category resolves to (same keying as the in-memory
budgets dict: last matching row wins). -/
def spentOf (budgets : List Budget) (category_id : Nat) : Option Rat :=
  ((budgets.filter fun b => b.category_id == category_id).getLast?).map Budget.spent

lemma balanceOf_nil (i : Nat) : balanceOf [] i = none := rfl

lemma balanceOf_cons (a : Account) (l : List Account) (i : Nat) :
    balanceOf (a :: l) i = if a.account_id = i then some a.initial_balance else balanceOf l i := by
  by_cases h : a.account_id = i
  · simp [balanceOf, List.find?_cons, h]
  · simp [balanceOf, List.find?_cons, h]

lemma balanceOf_creditBalance (l : List Account) (aid : Nat) (d : Rat) (i : Nat) :
    balanceOf (creditBalance l aid d) i =
      if i = aid then (balanceOf l i).map (fun b => b + d) else balanceOf l i := by
  induction l with
  | nil => simp [creditBalance, balanceOf_nil]
  | cons a tl ih =>
    have hcons : creditBalance (a :: tl) aid d =
        (if a.account_id = aid then { a with initial_balance := a.initial_balance + d }
          else a) :: creditBalance tl aid d := rfl
    rw [hcons]
    by_cases ha : a.account_id = aid <;> by_cases hi : i = aid <;>
      by_cases h3 : a.account_id = i <;>
        simp [ha, hi, h3, balanceOf_cons, ih] <;> simp_all

/-- The budget-delta update touches only the budgets table. -/
lemma ubat_accounts (s : State) (c : Nat) (amount : Rat) :
    (update_budget_after_transaction s c amount).accounts = s.accounts := by
  unfold update_budget_after_transaction
  cases h : (s.budgets.filter fun b => b.category_id == c).getLast? <;> rfl

lemma ubat_transactions (s : State) (c : Nat) (amount : Rat) :
    (update_budget_after_transaction s c amount).transactions = s.transactions := by
  unfold update_budget_after_transaction
  cases h : (s.budgets.filter fun b => b.category_id == c).getLast? <;> rfl

lemma ubat_expense_ids (s : State) (c : Nat) (amount : Rat) :
    (update_budget_after_transaction s c amount).expense_category_ids =
      s.expense_category_ids := by
  unfold update_budget_after_transaction
  cases h : (s.budgets.filter fun b => b.category_id == c).getLast? <;> rfl

/-- C1.  The budget-alert evaluation tests `spent >= 0.9 * limit` first and only
`elif spent > limit`, so for any positive limit the exceeded branch is dead code: at
limit 100 and spent 101 (limit positive, spent strictly over the limit) the emitted
alert is `nearing`, where the specification demands `exceeded`. -/
theorem C1_alert_at_101_of_100_is_nearing_not_exceeded :
    (0 : Rat) < 100 ∧ (100 : Rat) < 101 ∧
      check_budget_alerts 100 101 = Alert.nearing ∧ Alert.nearing ≠ Alert.exceeded :=
  ⟨by norm_num, by norm_num, by with_unfolding_all rfl, by decide⟩

/-- C2.  An expense creation against an account whose balance is zero or negative, or
whose requested amount strictly exceeds the balance, is rejected before any write:
the resulting state is the input state, so no transaction row is inserted and no
balance or budget changes. -/
theorem C2_insufficient_expense_rejected (s : State) (account_id category_id : Nat)
    (amount : Rat) (notes : String) (y m new_id : Nat) (b : Rat)
    (hbal : balanceOf s.accounts account_id = some b)
    (hrej : b ≤ 0 ∨ b < amount) :
    add_transaction s "expense" account_id category_id amount notes y m new_id = s := by
  unfold add_transaction
  rw [hbal]
  rcases hrej with h | h
  · simp [h]
  · by_cases hb0 : b ≤ 0 <;> simp [h, hb0]

/-- Witness for C2 at a concrete state: balance 10, requested expense 25. -/
theorem C2_witness :
    add_transaction
      { accounts := [⟨1, "w", 10, "cash"⟩], transactions := [], budgets := [],
        expense_category_ids := [4] } "expense" 1 4 25 "" 2026 10 7 =
      { accounts := [⟨1, "w", 10, "cash"⟩], transactions := [], budgets := [],
        expense_category_ids := [4] } :=
  C2_insufficient_expense_rejected _ 1 4 25 "" 2026 10 7 10
    (by with_unfolding_all rfl) (Or.inr (by norm_num))

/-- C4.  A committed transfer of a positive amount `A` between distinct accounts with
a sufficient source balance: the source balance drops by exactly `A`, the destination
balance rises by exactly `A`, and exactly two new rows are appended — a Transfer-typed
debit row of amount `-A` on the source and a Transfer-typed credit row of amount `A`
on the destination, both with no category — whose amounts sum to zero. -/
theorem C4_transfer_moves_balances_and_appends_two_rows (s : State)
    (source dest : String) (sid did : Nat) (A : Rat) (notes : String)
    (y m id1 id2 : Nat) (bX bY : Rat)
    (hne : ¬ sid = did) (hA : 0 < A)
    (hbX : balanceOf s.accounts sid = some bX)
    (hbY : balanceOf s.accounts did = some bY)
    (hge : A ≤ bX) :
    balanceOf (transfer_funds s source dest sid did A notes y m id1 id2).accounts sid =
        some (bX - A) ∧
    balanceOf (transfer_funds s source dest sid did A notes y m id1 id2).accounts did =
        some (bY + A) ∧
    ∃ dr cr : Txn,
      (transfer_funds s source dest sid did A notes y m id1 id2).transactions =
          s.transactions ++ [dr, cr] ∧
      dr.transaction_type = "Transfer" ∧ cr.transaction_type = "Transfer" ∧
      dr.category_id = none ∧ cr.category_id = none ∧
      dr.account_id = sid ∧ cr.account_id = did ∧
      dr.amount = -A ∧ cr.amount = A ∧ dr.amount + cr.amount = 0 := by
  have hA0 : ¬ A = 0 := by positivity
  have hlt : ¬ bX < A := not_lt.mpr hge
  have hds : ¬ did = sid := fun h => hne h.symm
  unfold transfer_funds
  rw [hbX]
  simp only [if_neg hne, if_neg hA0, if_neg hlt]
  refine ⟨?_, ?_, ?_⟩
  · rw [balanceOf_creditBalance, if_neg hne, balanceOf_creditBalance, if_pos rfl, hbX]
    simp only [Option.map_some']
    congr 1
    ring
  · rw [balanceOf_creditBalance, if_pos rfl, balanceOf_creditBalance, if_neg hds, hbY]
    simp only [Option.map_some']
  · exact ⟨_, _, rfl, rfl, rfl, rfl, rfl, rfl, rfl, rfl, rfl, by ring⟩

/-- Witness for C4: transfer 30 from account 1 (balance 100) to account 2
(balance 5). -/
theorem C4_witness :
    balanceOf (transfer_funds
      { accounts := [⟨1, "x", 100, "cash"⟩, ⟨2, "y", 5, "cash"⟩], transactions := [],
        budgets := [], expense_category_ids := [] } "x" "y" 1 2 30 "" 2026 10 1 2).accounts
        1 = some (100 - 30) ∧
    balanceOf (transfer_funds
      { accounts := [⟨1, "x", 100, "cash"⟩, ⟨2, "y", 5, "cash"⟩], transactions := [],
        budgets := [], expense_category_ids := [] } "x" "y" 1 2 30 "" 2026 10 1 2).accounts
        2 = some (5 + 30) :=
  ⟨(C4_transfer_moves_balances_and_appends_two_rows _ "x" "y" 1 2 30 "" 2026 10 1 2 100 5
      (by decide) (by norm_num) (by with_unfolding_all rfl) (by with_unfolding_all rfl)
      (by norm_num)).1,
   (C4_transfer_moves_balances_and_appends_two_rows _ "x" "y" 1 2 30 "" 2026 10 1 2 100 5
      (by decide) (by norm_num) (by with_unfolding_all rfl) (by with_unfolding_all rfl)
      (by norm_num)).2.1⟩

/-- Post-transfer state used to examine transfer deletion: a transfer of 50 went from
account 1 (name "x") to account 2 (name "y"); both balances now stand at 50, and the
two legs are on record with the notes the transfer wrote. -/
def transferPairState : State :=
  { accounts := [⟨1, "x", 50, "cash"⟩, ⟨2, "y", 50, "cash"⟩],
    transactions :=
      [⟨1, 1, none, "Transfer", -50, "Transfer to y: ", 2026, 10⟩,
       ⟨2, 2, none, "Transfer", 50, "Transfer from x: ", 2026, 10⟩],
    budgets := [], expense_category_ids := [] }

/-- The credit leg of `transferPairState` (the row deletion is asked to remove). -/
def transferCreditLeg : Txn := ⟨2, 2, none, "Transfer", 50, "Transfer from x: ", 2026, 10⟩

/-- C5.  Deleting the credit leg of a recorded 50-transfer from account 1 to
account 2 does not reverse the transfer: the code adjusts source by minus the
selected row's signed amount and destination by plus it, and the credit leg's amount
is positive, so account 1 drops to 0 and account 2 rises to 100 — the transfer is
applied a second time instead of being reversed (the claim demands 100 and 0).  Both
rows are nonetheless removed. -/
theorem C5_credit_leg_deletion_reapplies_transfer :
    balanceOf (delete_transaction transferPairState transferCreditLeg true true).accounts 1 =
        some 0 ∧
    balanceOf (delete_transaction transferPairState transferCreditLeg true true).accounts 2 =
        some 100 ∧
    (delete_transaction transferPairState transferCreditLeg true true).transactions = [] ∧
    ¬ balanceOf (delete_transaction transferPairState transferCreditLeg true true).accounts 1 =
        some 100 :=
  ⟨by with_unfolding_all rfl, by with_unfolding_all rfl, by with_unfolding_all rfl,
   by intro h; rw [show balanceOf (delete_transaction transferPairState transferCreditLeg
        true true).accounts 1 = some 0 from by with_unfolding_all rfl] at h
      exact absurd (Option.some.inj h) (by norm_num)⟩

/-- Two-account state with no transactions, used to exercise transfer creation. -/
def twoAccountState : State :=
  { accounts := [⟨1, "x", 100, "cash"⟩, ⟨2, "y", 50, "cash"⟩],
    transactions := [], budgets := [], expense_category_ids := [] }

/-- C6.  A transfer request of the negative amount -5 is not rejected: the guard is
Python's `if not amount`, which only catches 0, and the sufficiency check
`balance < amount` trivially holds for a negative amount, so two rows are inserted
and both balances move (source 100 to 105, destination 50 to 45) although the claim
demands rejection of every amount at most 0. -/
theorem C6_negative_transfer_amount_commits :
    ((-5 : Rat) ≤ 0) ∧
    (transfer_funds twoAccountState "x" "y" 1 2 (-5) "" 2026 10 1 2).transactions.length
        = 2 ∧
    balanceOf (transfer_funds twoAccountState "x" "y" 1 2 (-5) "" 2026 10 1 2).accounts 1
        = some 105 ∧
    balanceOf (transfer_funds twoAccountState "x" "y" 1 2 (-5) "" 2026 10 1 2).accounts 2
        = some 45 ∧
    ¬ transfer_funds twoAccountState "x" "y" 1 2 (-5) "" 2026 10 1 2 = twoAccountState :=
  ⟨by norm_num, by with_unfolding_all rfl, by with_unfolding_all rfl,
   by with_unfolding_all rfl,
   by intro h
      have h2 : (transfer_funds twoAccountState "x" "y" 1 2 (-5) "" 2026 10 1
          2).transactions.length = 2 := by with_unfolding_all rfl
      rw [h] at h2
      exact absurd h2 (by decide)⟩

/-- C8 counterexample.  Creating a budget for category 1 twice in a row (both calls
succeed: the category is a known expense category and `add_budget` never looks for an
existing budget) leaves two budget rows referencing category 1, refuting the claim
that at most one budget row per category can exist. -/
theorem C8_counterexample_duplicate_budget_rows :
    ((add_budget (add_budget
        { accounts := [], transactions := [], budgets := [], expense_category_ids := [1] }
        1 100 2026 10 1) 1 50 2026 10 2).budgets.countP
      fun b => b.category_id == 1) = 2 := by
  with_unfolding_all rfl

/-- C8 (amended).  The add-budget operation performs no per-category uniqueness
check: any call whose category is a known expense category appends one more budget
row for that category, so the per-category row count strictly grows and a category
that already has a budget receives a second row. -/
theorem C8_add_budget_always_appends_row (s : State) (c : Nat) (L : Rat) (y m bid : Nat)
    (hc : c ∈ s.expense_category_ids) :
    ((add_budget s c L y m bid).budgets.countP fun b => b.category_id == c) =
      (s.budgets.countP fun b => b.category_id == c) + 1 := by
  unfold add_budget
  rw [if_neg (not_not_intro hc)]
  simp [List.countP_append, List.countP_cons]

/-- Witness for C8 (amended): one existing budget row for category 3 becomes two. -/
theorem C8_witness :
    ((add_budget
        { accounts := [], transactions := [], budgets := [⟨1, 3, 80, 10⟩],
          expense_category_ids := [3] } 3 40 2026 10 2).budgets.countP
      fun b => b.category_id == 3) =
      (([⟨1, 3, 80, 10⟩] : List Budget).countP fun b => b.category_id == 3) + 1 :=
  C8_add_budget_always_appends_row _ 3 40 2026 10 2 (by decide)

/-- The characterisation of the seed as a sum of per-row contributions: each row
contributes its amount exactly when it is an Expense row of the category dated in the
given year and month, and 0 otherwise. -/
lemma seed_spent_eq_ite_sum (txns : List Txn) (c y m : Nat) :
    seed_spent txns c y m =
      (txns.map fun t =>
        if t.category_id = some c ∧ t.transaction_type = "Expense" ∧
            t.date_year = y ∧ t.date_month = m then t.amount else 0).sum := by
  induction txns with
  | nil => rfl
  | cons h tl ih =>
    by_cases hc : h.category_id = some c ∧ h.transaction_type = "Expense" ∧
        h.date_year = y ∧ h.date_month = m
    · have hb : (h.category_id == some c && h.transaction_type == "Expense"
          && h.date_year == y && h.date_month == m) = true := by
        simp only [Bool.and_eq_true, beq_iff_eq]
        exact ⟨⟨⟨hc.1, hc.2.1⟩, hc.2.2.1⟩, hc.2.2.2⟩
      simp [seed_spent, List.filter_cons, hb, hc] at *
      exact ih
    · have hb : (h.category_id == some c && h.transaction_type == "Expense"
          && h.date_year == y && h.date_month == m) = false := by
        rw [Bool.eq_false_iff]
        intro hb
        simp only [Bool.and_eq_true, beq_iff_eq] at hb
        exact hc ⟨hb.1.1.1, hb.1.1.2, hb.1.2, hb.2⟩
      simp [seed_spent, List.filter_cons, hb, hc] at *
      exact ih

/-- C9.  Creating a budget for a known expense category appends exactly one budget
row whose limit is the requested limit and whose spent value is seeded as the sum of
the amounts of that category's Expense transactions dated in the current year and
month; rows of other categories, other types or other months contribute 0, and the
seed is 0 when no transaction matches. -/
theorem C9_budget_seeded_from_current_month_expenses (s : State) (c : Nat) (L : Rat)
    (y m bid : Nat) (hc : c ∈ s.expense_category_ids) :
    ∃ nb : Budget,
      (add_budget s c L y m bid).budgets = s.budgets ++ [nb] ∧
      nb.category_id = c ∧ nb.monthly_limit = L ∧
      nb.spent = (s.transactions.map fun t =>
        if t.category_id = some c ∧ t.transaction_type = "Expense" ∧
            t.date_year = y ∧ t.date_month = m then t.amount else 0).sum ∧
      ((∀ t ∈ s.transactions,
          ¬ (t.category_id = some c ∧ t.transaction_type = "Expense" ∧
              t.date_year = y ∧ t.date_month = m)) → nb.spent = 0) := by
  unfold add_budget
  rw [if_neg (not_not_intro hc)]
  refine ⟨_, rfl, rfl, rfl, (seed_spent_eq_ite_sum s.transactions c y m), ?_⟩
  intro hnone
  rw [seed_spent_eq_ite_sum s.transactions c y m]
  rw [List.sum_eq_zero]
  intro x hx
  rw [List.mem_map] at hx
  obtain ⟨t, ht, hxt⟩ := hx
  rw [if_neg (hnone t ht)] at hxt
  exact hxt.symm

/-- Witness for C9: category 7, one in-month expense of 60, one other-month expense
of 80, one in-month income of 10 and one in-month expense of another category; the
seed picks up only the 60. -/
theorem C9_witness :
    ∃ nb : Budget,
      (add_budget
        { accounts := [], transactions :=
            [⟨1, 1, some 7, "Expense", 60, "", 2026, 10⟩,
             ⟨2, 1, some 7, "Expense", 80, "", 2026, 9⟩,
             ⟨3, 1, some 7, "Income", 10, "", 2026, 10⟩,
             ⟨4, 1, some 8, "Expense", 30, "", 2026, 10⟩],
          budgets := [], expense_category_ids := [7, 8] } 7 150 2026 10 1).budgets =
        [] ++ [nb] ∧
      nb.category_id = 7 ∧ nb.monthly_limit = 150 ∧
      nb.spent = (([⟨1, 1, some 7, "Expense", 60, "", 2026, 10⟩,
             ⟨2, 1, some 7, "Expense", 80, "", 2026, 9⟩,
             ⟨3, 1, some 7, "Income", 10, "", 2026, 10⟩,
             ⟨4, 1, some 8, "Expense", 30, "", 2026, 10⟩] : List Txn).map fun t =>
        if t.category_id = some 7 ∧ t.transaction_type = "Expense" ∧
            t.date_year = 2026 ∧ t.date_month = 10 then t.amount else 0).sum ∧
      ((∀ t ∈ ([⟨1, 1, some 7, "Expense", 60, "", 2026, 10⟩,
             ⟨2, 1, some 7, "Expense", 80, "", 2026, 9⟩,
             ⟨3, 1, some 7, "Income", 10, "", 2026, 10⟩,
             ⟨4, 1, some 8, "Expense", 30, "", 2026, 10⟩] : List Txn),
          ¬ (t.category_id = some 7 ∧ t.transaction_type = "Expense" ∧
              t.date_year = 2026 ∧ t.date_month = 10)) → nb.spent = 0) :=
  C9_budget_seeded_from_current_month_expenses _ 7 150 2026 10 1 (by decide)

/-- With pairwise distinct transaction ids, a row is determined by its id. -/
lemma txn_unique_by_id {txns : List Txn} (hnd : (txns.map Txn.transaction_id).Nodup)
    {r t : Txn} (hr : r ∈ txns) (ht : t ∈ txns)
    (hid : r.transaction_id = t.transaction_id) : r = t :=
  List.inj_on_of_nodup_map hnd hr ht hid

/-- C10 (amended).  For every existing transaction — transfer or not — a non-blank
amount entry makes the update operation reject the input with no change at all to
the state.  On the only accepted amount entry (blank, meaning keep the current
amount), a non-transfer transaction's updated row still carries its original amount.
The transfer route is deliberately not covered by the preservation conjunct: there a
blank entry rewrites the matched legs' amounts to minus/plus the selected row's
absolute amount, which changes a leg stored with a nonstandard sign — see the C10
counterexample below. -/
theorem C10_update_rejects_nonblank_amount_and_preserves_amount (s : State) (t : Txn)
    (amount_input : String) (new_category_id : Option Nat) (new_notes : String)
    (new_y new_m : Nat)
    (ht : t ∈ s.transactions)
    (hnd : (s.transactions.map Txn.transaction_id).Nodup) :
    (¬ strTrim amount_input = "" →
      update_transaction s t amount_input new_category_id new_notes new_y new_m = s) ∧
    (strTrim amount_input = "" → ¬ t.transaction_type = "Transfer" →
      ∀ r ∈ (update_transaction s t amount_input new_category_id new_notes
          new_y new_m).transactions,
        r.transaction_id = t.transaction_id → r.amount = t.amount) := by
  constructor
  · intro hnb
    by_cases htr : t.transaction_type = "Transfer"
    · show update_transaction s t amount_input new_category_id new_notes new_y new_m = s
      unfold update_transaction
      rw [if_neg (not_not_intro htr)]
      unfold update_transfer_funds
      cases hdi : (parse_transfer_legs s t).dest_id with
      | none => simp [hdi]
      | some dst =>
        cases hsi : (parse_transfer_legs s t).source_id with
        | none => simp [hdi, hsi]
        | some src => simp [hdi, hsi, hnb]
    · unfold update_transaction
      rw [if_pos htr, if_pos hnb]
  · intro hbl htr r hr hid
    cases hc : new_category_id with
    | none =>
      have hres : update_transaction s t amount_input none new_notes new_y new_m = s := by
        unfold update_transaction
        rw [if_pos htr, if_neg (not_not_intro hbl)]
      rw [hc, hres] at hr
      have : r = t := txn_unique_by_id hnd hr ht hid
      rw [this]
    | some cid =>
      rw [hc] at hr
      have htx : (update_transaction s t amount_input (some cid) new_notes
          new_y new_m).transactions =
          s.transactions.map fun r0 =>
            if r0.transaction_id = t.transaction_id then
              { r0 with
                category_id := some cid, amount := t.amount, notes := new_notes,
                date_year := new_y, date_month := new_m }
            else r0 := by
        unfold update_transaction
        rw [if_pos htr, if_neg (not_not_intro hbl)]
        dsimp only
        by_cases hexp : pyLower t.transaction_type = "expense"
        · rw [if_pos hexp]
          by_cases hch : ¬ t.category_id = some cid
          · rw [if_pos hch]
          · rw [if_neg hch]
        · rw [if_neg hexp]
      rw [htx] at hr
      rw [List.mem_map] at hr
      obtain ⟨r0, hr0, hrr⟩ := hr
      by_cases h0 : r0.transaction_id = t.transaction_id
      · rw [if_pos h0] at hrr
        rw [← hrr]
      · rw [if_neg h0] at hrr
        rw [← hrr] at hid
        exact absurd hid h0

/-- One-transaction state used to witness the update-amount behaviour. -/
def oneTxnState : State :=
  { accounts := [⟨1, "w", 120, "cash"⟩],
    transactions := [⟨1, 1, some 4, "Income", 20, "salary", 2026, 10⟩],
    budgets := [], expense_category_ids := [4] }

/-- The transaction row of `oneTxnState`. -/
def oneTxnRow : Txn := ⟨1, 1, some 4, "Income", 20, "salary", 2026, 10⟩

/-- Witness for C10 at a concrete state and the non-blank amount entry "12.5". -/
theorem C10_witness :
    (¬ strTrim "12.5" = "" →
      update_transaction oneTxnState oneTxnRow "12.5" (some 4) "n" 2026 11 = oneTxnState) ∧
    (strTrim "12.5" = "" → ¬ oneTxnRow.transaction_type = "Transfer" →
      ∀ r ∈ (update_transaction oneTxnState oneTxnRow "12.5" (some 4) "n"
          2026 11).transactions,
        r.transaction_id = oneTxnRow.transaction_id → r.amount = oneTxnRow.amount) :=
  C10_update_rejects_nonblank_amount_and_preserves_amount oneTxnState oneTxnRow "12.5"
    (some 4) "n" 2026 11 (by decide) (by decide)

/-- The state left by the committed negative transfer of -5 from "x" to "y" (see C6):
its debit leg is stored with the positive amount 5. -/
def negTransferState : State :=
  transfer_funds twoAccountState "x" "y" 1 2 (-5) "" 2026 10 1 2

/-- The debit leg of `negTransferState` (amount +5, against the usual negative-debit
convention). -/
def negDebitLeg : Txn := ⟨1, 1, none, "Transfer", 5, "Transfer to y: ", 2026, 10⟩

/-- C10 counterexample.  The update operation can change the amount of an existing
transaction: on the transfer route a blank amount entry (the accepted, keep-current
entry) rewrites the matched legs to minus/plus the selected row's absolute amount, so
updating the positive debit leg left behind by the accepted negative transfer flips
its stored amount from 5 to -5 (and the credit leg from -5 to 5), refuting the claim
that the amount of an existing transaction is never actually changed. -/
theorem C10_counterexample_blank_transfer_update_changes_amount :
    negTransferState.transactions.head? = some negDebitLeg ∧
    strTrim "" = "" ∧
    (update_transaction negTransferState negDebitLeg "" none "" 2026 10).transactions.head?
      = some ⟨1, 1, none, "Transfer", -5, "Transfer to y: ", 2026, 10⟩ ∧
    ¬ ((-5 : Rat) = negDebitLeg.amount) :=
  ⟨by with_unfolding_all rfl, rfl, by with_unfolding_all rfl,
   by intro h
      have h5 : negDebitLeg.amount = 5 := rfl
      rw [h5] at h
      exact absurd h (by norm_num)⟩

/-- The effect of the budget-delta update on the budgets table alone. -/
def ubatList (B : List Budget) (c : Nat) (a : Rat) : List Budget :=
  match (B.filter fun b => b.category_id == c).getLast? with
  | none => B
  | some b =>
    B.map fun b0 => if b0.budget_id = b.budget_id then { b0 with spent := b.spent + a } else b0

lemma ubat_budgets (s : State) (c : Nat) (a : Rat) :
    (update_budget_after_transaction s c a).budgets = ubatList s.budgets c a := by
  unfold update_budget_after_transaction ubatList
  cases h : (s.budgets.filter fun b => b.category_id == c).getLast? <;> simp [h]

lemma getLast?_map_eq {α β : Type} (f : α → β) :
    ∀ l : List α, (l.map f).getLast? = (l.getLast?).map f
  | [] => rfl
  | [_] => rfl
  | a :: b :: tl => by
    rw [List.map_cons, List.map_cons, List.getLast?_cons_cons, ← List.map_cons,
      getLast?_map_eq f (b :: tl), List.getLast?_cons_cons]

lemma mem_of_getLast?_eq {α : Type} {l : List α} {x : α} (h : l.getLast? = some x) :
    x ∈ l := by
  obtain ⟨hne, hx⟩ := List.mem_getLast?_eq_getLast (l := l) (x := x)
    (by rw [Option.mem_def]; exact h)
  rw [hx]
  exact List.getLast_mem hne

/-- Applying the budget delta `-A` and then the budget delta `A` to the same category
is the identity on the budgets table, provided budget ids are pairwise distinct. -/
lemma ubatList_cancel (B : List Budget) (c : Nat) (A : Rat)
    (hnd : (B.map Budget.budget_id).Nodup) :
    ubatList (ubatList B c (-A)) c A = B := by
  cases h : (B.filter fun b => b.category_id == c).getLast? with
  | none =>
    unfold ubatList
    rw [h]
    rw [h]
  | some b0 =>
    have hmemf : b0 ∈ B.filter fun b => b.category_id == c := mem_of_getLast?_eq h
    have hmem : b0 ∈ B := List.mem_of_mem_filter hmemf
    have hB1 : ubatList B c (-A) =
        B.map fun b1 => if b1.budget_id = b0.budget_id then
          { b1 with spent := b0.spent + -A } else b1 := by
      unfold ubatList
      rw [h]
    set g1 : Budget → Budget := fun b1 => if b1.budget_id = b0.budget_id then
      { b1 with spent := b0.spent + -A } else b1 with hg1
    have hgcat : ∀ b1 : Budget, (g1 b1).category_id = b1.category_id := by
      intro b1
      rw [hg1]
      by_cases h1 : b1.budget_id = b0.budget_id
      · simp [h1]
      · simp [h1]
    have hfilt : ((B.map g1).filter fun b => b.category_id == c) =
        (B.filter fun b => b.category_id == c).map g1 := by
      rw [List.filter_map g1 B]
      congr 1
      apply List.filter_congr
      intro x _
      simp [Function.comp, hgcat x]
    have hlast : ((B.map g1).filter fun b => b.category_id == c).getLast? =
        some (g1 b0) := by
      rw [hfilt, getLast?_map_eq, h, Option.map_some']
    rw [hB1]
    unfold ubatList
    rw [hlast]
    dsimp only
    rw [List.map_map]
    have hfix : ∀ x ∈ B,
        ((fun b1 => if b1.budget_id = (g1 b0).budget_id then
          { b1 with spent := (g1 b0).spent + A } else b1) ∘ g1) x = x := by
      intro x hx
      have hid0 : (g1 b0).budget_id = b0.budget_id := by
        rw [hg1]
        simp
      have hsp0 : (g1 b0).spent = b0.spent + -A := by
        rw [hg1]
        simp
      by_cases hxb : x.budget_id = b0.budget_id
      · have hxeq : x = b0 := List.inj_on_of_nodup_map hnd hx hmem hxb
        subst hxeq
        have hsp : x.spent + -A + A = x.spent := by ring
        simp [hg1, hsp]
      · simp [hg1, hxb]
    rw [List.map_congr_left hfix]
    exact List.map_id' B

/-- C7.  Deleting a committed income or expense transaction and re-creating one with
the same account, category, type and amount restores the account balance and leaves
the budgets table — in particular every budget's spent value — exactly as before the
deletion (assuming a non-negative starting balance and distinct budget ids, so the
re-creation passes the expense validation). -/
theorem C7_delete_then_recreate_restores_balance_and_spent (s : State) (t : Txn)
    (cid : Nat) (notes : String) (y m nid : Nat) (b : Rat)
    (ht : t ∈ s.transactions)
    (htype : t.transaction_type = "Income" ∨ t.transaction_type = "Expense")
    (hcat : t.category_id = some cid)
    (hbal : balanceOf s.accounts t.account_id = some b)
    (hb : 0 ≤ b) (hA : 0 < t.amount)
    (hnd : (s.budgets.map Budget.budget_id).Nodup) :
    balanceOf (add_transaction (delete_transaction s t true true)
        (pyLower t.transaction_type) t.account_id cid t.amount notes y m
        nid).accounts t.account_id = some b ∧
    (add_transaction (delete_transaction s t true true)
        (pyLower t.transaction_type) t.account_id cid t.amount notes y m
        nid).budgets = s.budgets ∧
    ∀ c, spentOf (add_transaction (delete_transaction s t true true)
        (pyLower t.transaction_type) t.account_id cid t.amount notes y m
        nid).budgets c = spentOf s.budgets c := by
  rcases htype with htI | htE
  · -- income round trip
    have hlow : pyLower t.transaction_type = "income" := by
      rw [htI]
      with_unfolding_all rfl
    have hdelA : (delete_transaction s t true true).accounts =
        creditBalance s.accounts t.account_id (-t.amount) := by
      unfold delete_transaction
      rw [hlow, hbal]
      simp
    have hdelB : (delete_transaction s t true true).budgets = s.budgets := by
      unfold delete_transaction
      rw [hlow, hbal]
      simp
    have hdbal : balanceOf (delete_transaction s t true true).accounts t.account_id =
        some (b + -t.amount) := by
      rw [hdelA, balanceOf_creditBalance, if_pos rfl, hbal, Option.map_some']
    have hres : add_transaction (delete_transaction s t true true) "income"
        t.account_id cid t.amount notes y m nid =
        { delete_transaction s t true true with
          accounts := creditBalance (delete_transaction s t true true).accounts
            t.account_id t.amount,
          transactions := (delete_transaction s t true true).transactions ++
            [{ transaction_id := nid, account_id := t.account_id, category_id := some cid,
               transaction_type := "Income", amount := t.amount, notes := notes,
               date_year := y, date_month := m }] } := by
      unfold add_transaction
      rw [hdbal]
      dsimp only
      rw [if_neg (show ¬ ¬ (("income" : String) = "income" ∨ ("income" : String) =
        "expense") from by decide)]
      rw [if_neg (fun hcon => (by decide : ¬ (("income" : String) = "expense")) hcon.2)]
      rw [if_neg (fun hcon => (by decide : ¬ (("income" : String) = "expense")) hcon.2)]
      rw [if_pos rfl, if_pos rfl]
    rw [hlow, hres]
    refine ⟨?_, ?_, ?_⟩
    · show balanceOf (creditBalance (delete_transaction s t true true).accounts
        t.account_id t.amount) t.account_id = some b
      rw [balanceOf_creditBalance, if_pos rfl, hdbal, Option.map_some']
      congr 1
      ring
    · exact hdelB
    · intro c
      show spentOf (delete_transaction s t true true).budgets c = spentOf s.budgets c
      rw [hdelB]
  · -- expense round trip
    have hlow : pyLower t.transaction_type = "expense" := by
      rw [htE]
      with_unfolding_all rfl
    have hlowNotI : ¬ pyLower t.transaction_type = "income" := by
      rw [hlow]
      decide
    have hdelA : (delete_transaction s t true true).accounts =
        creditBalance s.accounts t.account_id t.amount := by
      unfold delete_transaction
      rw [hcat]
      rw [if_neg (by simp), if_neg (by simp [hlowNotI]), if_pos hlow]
      dsimp only
      rw [ubat_accounts]
    have hdelB : (delete_transaction s t true true).budgets =
        ubatList s.budgets cid (-t.amount) := by
      unfold delete_transaction
      rw [hcat]
      rw [if_neg (by simp), if_neg (by simp [hlowNotI]), if_pos hlow]
      dsimp only
      rw [ubat_budgets]
    have hdbal : balanceOf (delete_transaction s t true true).accounts t.account_id =
        some (b + t.amount) := by
      rw [hdelA, balanceOf_creditBalance, if_pos rfl, hbal, Option.map_some']
    have hg1 : ¬ (b + t.amount ≤ 0 ∧ ("expense" : String) = "expense") := by
      intro hcon
      nlinarith [hcon.1]
    have hg2 : ¬ (b + t.amount < t.amount ∧ ("expense" : String) = "expense") := by
      intro hcon
      nlinarith [hcon.1]
    have hres : add_transaction (delete_transaction s t true true) "expense"
        t.account_id cid t.amount notes y m nid =
        update_budget_after_transaction
          { delete_transaction s t true true with
            accounts := creditBalance (delete_transaction s t true true).accounts
              t.account_id (-t.amount),
            transactions := (delete_transaction s t true true).transactions ++
              [{ transaction_id := nid, account_id := t.account_id,
                 category_id := some cid, transaction_type := "Expense",
                 amount := t.amount, notes := notes, date_year := y,
                 date_month := m }] } cid t.amount := by
      unfold add_transaction
      rw [hdbal]
      dsimp only
      rw [if_neg (show ¬ ¬ (("expense" : String) = "income" ∨ ("expense" : String) =
        "expense") from by decide)]
      rw [if_neg hg1, if_neg hg2]
      rw [if_neg (show ¬ (("expense" : String) = "income") from by decide)]
      rw [if_neg (show ¬ (("expense" : String) = "income") from by decide)]
    rw [hlow, hres]
    refine ⟨?_, ?_, ?_⟩
    · rw [ubat_accounts]
      show balanceOf (creditBalance (delete_transaction s t true true).accounts
        t.account_id (-t.amount)) t.account_id = some b
      rw [balanceOf_creditBalance, if_pos rfl, hdbal, Option.map_some']
      congr 1
      ring
    · rw [ubat_budgets]
      show ubatList (delete_transaction s t true true).budgets cid t.amount = s.budgets
      rw [hdelB]
      exact ubatList_cancel s.budgets cid t.amount hnd
    · intro c
      rw [ubat_budgets]
      show spentOf (ubatList (delete_transaction s t true true).budgets cid t.amount) c
        = spentOf s.budgets c
      rw [hdelB, ubatList_cancel s.budgets cid t.amount hnd]

/-- Round-trip scenario state: account 1 holds 140 after a committed 60 expense of
category 5, whose budget (limit 150) has spent 60. -/
def roundTripState : State :=
  { accounts := [⟨1, "w", 140, "cash"⟩],
    transactions := [⟨1, 1, some 5, "Expense", 60, "", 2026, 10⟩],
    budgets := [⟨1, 5, 150, 60⟩], expense_category_ids := [5] }

/-- The expense row of `roundTripState`. -/
def roundTripRow : Txn := ⟨1, 1, some 5, "Expense", 60, "", 2026, 10⟩

/-- Witness for C7: delete the 60 expense and re-create it; balance 140 and
spent 60 both return. -/
theorem C7_witness :
    balanceOf (add_transaction (delete_transaction roundTripState roundTripRow true true)
        (pyLower roundTripRow.transaction_type) roundTripRow.account_id 5
        roundTripRow.amount "" 2026 10 2).accounts roundTripRow.account_id = some 140 ∧
    (add_transaction (delete_transaction roundTripState roundTripRow true true)
        (pyLower roundTripRow.transaction_type) roundTripRow.account_id 5
        roundTripRow.amount "" 2026 10 2).budgets = roundTripState.budgets ∧
    ∀ c, spentOf (add_transaction (delete_transaction roundTripState roundTripRow
        true true) (pyLower roundTripRow.transaction_type) roundTripRow.account_id 5
        roundTripRow.amount "" 2026 10 2).budgets c = spentOf roundTripState.budgets c :=
  C7_delete_then_recreate_restores_balance_and_spent roundTripState roundTripRow 5 ""
    2026 10 2 140 (by decide) (Or.inr rfl) rfl (by with_unfolding_all rfl)
    (by norm_num) (by norm_num [roundTripRow]) (by decide)

/-- One caller-level operation on a single account, for the running-balance
invariant: create an income, create an expense, or delete the row with a given id
(deletion answers every confirmation with yes, as a committed run requires). -/
inductive Op where
  | addIncome (category_id : Nat) (amount : Rat) (notes : String) (y m : Nat)
  | addExpense (category_id : Nat) (amount : Rat) (notes : String) (y m : Nat)
  | deleteTx (transaction_id : Nat)

/-- The auto-increment id handed to the next inserted row. -/
def nextId (s : State) : Nat := (s.transactions.map Txn.transaction_id).foldr max 0 + 1

/-- Apply one operation on account `aid` through the embedded ledger operations. -/
def applyOp (aid : Nat) (s : State) (op : Op) : State :=
  match op with
  | .addIncome cid amt nts y m => add_transaction s "income" aid cid amt nts y m (nextId s)
  | .addExpense cid amt nts y m => add_transaction s "expense" aid cid amt nts y m (nextId s)
  | .deleteTx tid =>
    match s.transactions.find? fun r => r.transaction_id == tid with
    | none => s
    | some t => delete_transaction s t true true

/-- Apply a sequence of operations on account `aid`. -/
def applyOps (aid : Nat) (s : State) (ops : List Op) : State := ops.foldl (applyOp aid) s

/-- The running-sum invariant of C3: the stored balance is the initial balance plus
Σincome minus Σexpense over exactly the rows on record, every row on record belongs
to the account and is an Income/Expense row, and row ids are pairwise distinct. -/
def LedgerInv (aid : Nat) (init : Rat) (s : State) : Prop :=
  balanceOf s.accounts aid =
    some (init + incomeSum s.transactions aid - expenseSum s.transactions aid) ∧
  (∀ t ∈ s.transactions, t.account_id = aid ∧
    (t.transaction_type = "Income" ∨ t.transaction_type = "Expense")) ∧
  (s.transactions.map Txn.transaction_id).Nodup

lemma le_foldr_max (l : List Nat) : ∀ x ∈ l, x ≤ l.foldr max 0 := by
  induction l with
  | nil => simp
  | cons h tl ih =>
    intro x hx
    rcases List.mem_cons.mp hx with rfl | hx2
    · exact le_max_left _ _
    · exact le_trans (ih x hx2) (le_max_right _ _)

lemma nextId_fresh (s : State) : ¬ nextId s ∈ s.transactions.map Txn.transaction_id := by
  intro hmem
  have h := le_foldr_max (s.transactions.map Txn.transaction_id) (nextId s) hmem
  unfold nextId at h
  omega

lemma sum_amount_filter_append_single (p : Txn → Bool) (l : List Txn) (r : Txn) :
    (((l ++ [r]).filter p).map Txn.amount).sum =
      ((l.filter p).map Txn.amount).sum + (if p r then r.amount else 0) := by
  rw [List.filter_append, List.map_append, List.sum_append]
  by_cases h : p r <;> simp [List.filter_cons, h]

lemma sum_amount_filter_remove (p : Txn → Bool) (l : List Txn) :
    ∀ t : Txn, t ∈ l → (l.map Txn.transaction_id).Nodup →
      (((l.filter fun r => ! (r.transaction_id == t.transaction_id)).filter p).map
        Txn.amount).sum =
      ((l.filter p).map Txn.amount).sum - (if p t then t.amount else 0) := by
  induction l with
  | nil =>
    intro t ht
    cases ht
  | cons hd tl ih =>
    intro t ht hnd
    rw [List.map_cons, List.nodup_cons] at hnd
    obtain ⟨hhd, hndtl⟩ := hnd
    rcases List.mem_cons.mp ht with rfl | htl
    · have hkeep : ∀ r ∈ tl, (! (r.transaction_id == t.transaction_id)) = true := by
        intro r hr
        have hmem : r.transaction_id ∈ tl.map Txn.transaction_id :=
          List.mem_map_of_mem _ hr
        simp only [Bool.not_eq_true', beq_eq_false_iff_ne, ne_eq]
        intro heq
        exact hhd (heq ▸ hmem)
      have h1 : (t :: tl).filter (fun r => ! (r.transaction_id == t.transaction_id)) =
          tl := by
        rw [List.filter_cons]
        simp only [beq_self_eq_true, Bool.not_true, if_false, Bool.false_eq_true]
        exact List.filter_eq_self.mpr hkeep
      rw [h1, List.filter_cons]
      by_cases hp : p t
      · simp [hp]
      · simp [hp]
    · have hne : ¬ hd.transaction_id = t.transaction_id := by
        intro heq
        exact hhd (heq ▸ List.mem_map_of_mem _ htl)
      have h1 : (hd :: tl).filter (fun r => ! (r.transaction_id == t.transaction_id)) =
          hd :: tl.filter (fun r => ! (r.transaction_id == t.transaction_id)) := by
        rw [List.filter_cons]
        simp [hne]
      rw [h1, List.filter_cons, List.filter_cons]
      by_cases hp : p hd
      · simp only [hp, if_true]
        rw [List.map_cons, List.sum_cons, List.map_cons, List.sum_cons,
          ih t htl hndtl]
        ring
      · simp only [hp, Bool.false_eq_true, if_false]
        exact ih t htl hndtl

lemma nodup_ids_filter (l : List Txn) (f : Txn → Bool)
    (h : (l.map Txn.transaction_id).Nodup) :
    ((l.filter f).map Txn.transaction_id).Nodup :=
  List.Nodup.sublist (List.Sublist.map _ (List.filter_sublist l)) h

lemma nodup_ids_append_single (l : List Txn) (r : Txn)
    (h : (l.map Txn.transaction_id).Nodup)
    (hr : ¬ r.transaction_id ∈ l.map Txn.transaction_id) :
    ((l ++ [r]).map Txn.transaction_id).Nodup := by
  rw [List.map_append, List.nodup_append]
  refine ⟨h, List.nodup_singleton _, ?_⟩
  intro a ha hb
  simp only [List.map_cons, List.map_nil, List.mem_singleton] at hb
  exact hr (hb ▸ ha)

/-- Commit shape of an income creation. -/
lemma add_income_eq (s : State) (aid cid : Nat) (amt : Rat) (nts : String)
    (y m nid : Nat) (b : Rat) (hbal : balanceOf s.accounts aid = some b) :
    add_transaction s "income" aid cid amt nts y m nid =
      { s with
        accounts := creditBalance s.accounts aid amt,
        transactions := s.transactions ++
          [⟨nid, aid, some cid, "Income", amt, nts, y, m⟩] } := by
  unfold add_transaction
  rw [hbal]
  dsimp only
  rw [if_neg (show ¬ ¬ (("income" : String) = "income" ∨ ("income" : String) =
    "expense") from by decide)]
  rw [if_neg (fun hcon => (by decide : ¬ (("income" : String) = "expense")) hcon.2)]
  rw [if_neg (fun hcon => (by decide : ¬ (("income" : String) = "expense")) hcon.2)]
  rw [if_pos rfl, if_pos rfl]

/-- Commit shape of an expense creation passing both balance checks. -/
lemma add_expense_eq (s : State) (aid cid : Nat) (amt : Rat) (nts : String)
    (y m nid : Nat) (b : Rat) (hbal : balanceOf s.accounts aid = some b)
    (hg1 : ¬ b ≤ 0) (hg2 : ¬ b < amt) :
    add_transaction s "expense" aid cid amt nts y m nid =
      update_budget_after_transaction
        { s with
          accounts := creditBalance s.accounts aid (-amt),
          transactions := s.transactions ++
            [⟨nid, aid, some cid, "Expense", amt, nts, y, m⟩] } cid amt := by
  unfold add_transaction
  rw [hbal]
  dsimp only
  rw [if_neg (show ¬ ¬ (("expense" : String) = "income" ∨ ("expense" : String) =
    "expense") from by decide)]
  rw [if_neg (fun hcon => hg1 hcon.1), if_neg (fun hcon => hg2 hcon.1)]
  rw [if_neg (show ¬ (("expense" : String) = "income") from by decide)]
  rw [if_neg (show ¬ (("expense" : String) = "income") from by decide)]

/-- Reject shape of an expense creation failing a balance check. -/
lemma add_expense_reject (s : State) (aid cid : Nat) (amt : Rat) (nts : String)
    (y m nid : Nat) (b : Rat) (hbal : balanceOf s.accounts aid = some b)
    (hrej : b ≤ 0 ∨ b < amt) :
    add_transaction s "expense" aid cid amt nts y m nid = s := by
  unfold add_transaction
  rw [hbal]
  rcases hrej with h | h
  · simp [h]
  · by_cases hb0 : b ≤ 0 <;> simp [h, hb0]

/-- Shape of an income deletion (confirmations yes). -/
lemma delete_income_eq (s : State) (t : Txn) (b : Rat)
    (hlow : pyLower t.transaction_type = "income")
    (hbal : balanceOf s.accounts t.account_id = some b) :
    delete_transaction s t true true =
      { s with
        accounts := creditBalance s.accounts t.account_id (-t.amount),
        transactions := s.transactions.filter fun r =>
          ! (r.transaction_id == t.transaction_id) } := by
  unfold delete_transaction
  rw [hlow, hbal]
  simp

/-- Accounts after an expense deletion (confirmations yes). -/
lemma delete_expense_accounts (s : State) (t : Txn)
    (hlow : pyLower t.transaction_type = "expense")
    (hnotI : ¬ pyLower t.transaction_type = "income") :
    (delete_transaction s t true true).accounts =
      creditBalance s.accounts t.account_id t.amount := by
  unfold delete_transaction
  rw [if_neg (by simp), if_neg (by simp [hnotI]), if_pos hlow]
  cases hc : t.category_id with
  | none => rfl
  | some cid =>
    dsimp only
    rw [ubat_accounts]

/-- Transactions after an expense deletion (confirmations yes). -/
lemma delete_expense_transactions (s : State) (t : Txn)
    (hlow : pyLower t.transaction_type = "expense")
    (hnotI : ¬ pyLower t.transaction_type = "income") :
    (delete_transaction s t true true).transactions =
      s.transactions.filter fun r => ! (r.transaction_id == t.transaction_id) := by
  unfold delete_transaction
  rw [if_neg (by simp), if_neg (by simp [hnotI]), if_pos hlow]
  cases hc : t.category_id with
  | none => rfl
  | some cid =>
    dsimp only
    rw [ubat_transactions]

/-- Every single operation preserves the running-sum invariant. -/
lemma ledgerInv_applyOp (aid : Nat) (init : Rat) (s : State) (op : Op)
    (h : LedgerInv aid init s) : LedgerInv aid init (applyOp aid s op) := by
  obtain ⟨hbal, hall, hnd⟩ := h
  cases op with
  | addIncome cid amt nts y m =>
    show LedgerInv aid init (add_transaction s "income" aid cid amt nts y m (nextId s))
    rw [add_income_eq s aid cid amt nts y m (nextId s) _ hbal]
    refine ⟨?_, ?_, ?_⟩
    · show balanceOf (creditBalance s.accounts aid amt) aid = _
      rw [balanceOf_creditBalance, if_pos rfl, hbal, Option.map_some']
      unfold incomeSum expenseSum
      rw [sum_amount_filter_append_single, sum_amount_filter_append_single]
      have hIE : (("Income" : String) == "Expense") = false := by decide
      simp only [beq_self_eq_true, Bool.and_self, Bool.true_and, hIE, if_true,
        Bool.false_eq_true, if_false, Option.some.injEq]
      ring
    · intro t htmem
      rcases List.mem_append.mp htmem with hold | hnew
      · exact hall t hold
      · rw [List.mem_singleton] at hnew
        subst hnew
        exact ⟨rfl, Or.inl rfl⟩
    · exact nodup_ids_append_single _ _ hnd (nextId_fresh s)
  | addExpense cid amt nts y m =>
    show LedgerInv aid init (add_transaction s "expense" aid cid amt nts y m (nextId s))
    by_cases hrej : (init + incomeSum s.transactions aid
        - expenseSum s.transactions aid) ≤ 0 ∨
        (init + incomeSum s.transactions aid - expenseSum s.transactions aid) < amt
    · rw [add_expense_reject s aid cid amt nts y m (nextId s) _ hbal hrej]
      exact ⟨hbal, hall, hnd⟩
    · rcases not_or.mp hrej with ⟨hg1, hg2⟩
      rw [add_expense_eq s aid cid amt nts y m (nextId s) _ hbal hg1 hg2]
      refine ⟨?_, ?_, ?_⟩
      · rw [ubat_accounts, ubat_transactions]
        show balanceOf (creditBalance s.accounts aid (-amt)) aid = _
        rw [balanceOf_creditBalance, if_pos rfl, hbal, Option.map_some']
        unfold incomeSum expenseSum
        rw [sum_amount_filter_append_single, sum_amount_filter_append_single]
        have hEI : (("Expense" : String) == "Income") = false := by decide
        simp only [beq_self_eq_true, Bool.and_self, Bool.true_and, hEI, if_true,
          Bool.false_eq_true, if_false, Option.some.injEq]
        ring
      · intro t htmem
        rw [ubat_transactions] at htmem
        rcases List.mem_append.mp htmem with hold | hnew
        · exact hall t hold
        · rw [List.mem_singleton] at hnew
          subst hnew
          exact ⟨rfl, Or.inr rfl⟩
      · rw [ubat_transactions]
        exact nodup_ids_append_single _ _ hnd (nextId_fresh s)
  | deleteTx tid =>
    show LedgerInv aid init
      (match s.transactions.find? fun r => r.transaction_id == tid with
       | none => s
       | some t => delete_transaction s t true true)
    cases hf : s.transactions.find? fun r => r.transaction_id == tid with
    | none => exact ⟨hbal, hall, hnd⟩
    | some t =>
      dsimp only
      have htmem : t ∈ s.transactions := List.mem_of_find?_eq_some hf
      obtain ⟨hta, htype⟩ := hall t htmem
      have hbalT : balanceOf s.accounts t.account_id =
          some (init + incomeSum s.transactions aid - expenseSum s.transactions aid) := by
        rw [hta]
        exact hbal
      rcases htype with htI | htE
      · have hlow : pyLower t.transaction_type = "income" := by
          rw [htI]
          with_unfolding_all rfl
        rw [delete_income_eq s t _ hlow hbalT]
        refine ⟨?_, ?_, ?_⟩
        · show balanceOf (creditBalance s.accounts t.account_id (-t.amount)) aid = _
          rw [hta, balanceOf_creditBalance, if_pos rfl, hbal, Option.map_some']
          unfold incomeSum expenseSum
          rw [sum_amount_filter_remove _ _ t htmem hnd,
            sum_amount_filter_remove _ _ t htmem hnd]
          have hpI : (t.account_id == aid && t.transaction_type == "Income") = true := by
            simp [hta, htI]
          have hpE : (t.account_id == aid && t.transaction_type == "Expense") = false := by
            simp [htI]
          simp only [hpI, hpE, if_true, Bool.false_eq_true, if_false,
            Option.some.injEq]
          ring
        · intro r hrmem
          exact hall r (List.mem_of_mem_filter hrmem)
        · exact nodup_ids_filter _ _ hnd
      · have hlow : pyLower t.transaction_type = "expense" := by
          rw [htE]
          with_unfolding_all rfl
        have hnotI : ¬ pyLower t.transaction_type = "income" := by
          rw [hlow]
          decide
        refine ⟨?_, ?_, ?_⟩
        · rw [delete_expense_accounts s t hlow hnotI,
            delete_expense_transactions s t hlow hnotI]
          rw [hta, balanceOf_creditBalance, if_pos rfl, hbal, Option.map_some']
          unfold incomeSum expenseSum
          rw [sum_amount_filter_remove _ _ t htmem hnd,
            sum_amount_filter_remove _ _ t htmem hnd]
          have hpI : (t.account_id == aid && t.transaction_type == "Income") = false := by
            simp [htE]
          have hpE : (t.account_id == aid && t.transaction_type == "Expense") = true := by
            simp [hta, htE]
          simp only [hpI, hpE, if_true, Bool.false_eq_true, if_false,
            Option.some.injEq]
          ring
        · intro r hrmem
          rw [delete_expense_transactions s t hlow hnotI] at hrmem
          exact hall r (List.mem_of_mem_filter hrmem)
        · rw [delete_expense_transactions s t hlow hnotI]
          exact nodup_ids_filter _ _ hnd

lemma ledgerInv_applyOps (aid : Nat) (init : Rat) (ops : List Op) :
    ∀ s : State, LedgerInv aid init s → LedgerInv aid init (applyOps aid s ops) := by
  induction ops with
  | nil => exact fun s h => h
  | cons op tl ih => exact fun s h => ih _ (ledgerInv_applyOp aid init s op h)

/-- C3.  Starting from an account with stored balance `init` and an empty transaction
table, after any sequence of committed income/expense creations and deletions on that
account (no transfers, no direct balance edits) the stored balance equals `init` plus
the income total minus the expense total over exactly the transactions then on
record. -/
theorem C3_balance_is_running_sum (ops : List Op) (s0 : State) (aid : Nat) (init : Rat)
    (hbal0 : balanceOf s0.accounts aid = some init)
    (hemp : s0.transactions = []) :
    balanceOf (applyOps aid s0 ops).accounts aid =
      some (init + incomeSum (applyOps aid s0 ops).transactions aid
        - expenseSum (applyOps aid s0 ops).transactions aid) := by
  have h0 : LedgerInv aid init s0 := by
    refine ⟨?_, ?_, ?_⟩
    · rw [hemp]
      unfold incomeSum expenseSum
      norm_num
      exact hbal0
    · rw [hemp]
      intro t ht
      cases ht
    · rw [hemp]
      simp
  exact (ledgerInv_applyOps aid init ops s0 h0).1

/-- Initial state of the C3 witness run: account 1 with balance 200, empty ledger. -/
def runStartState : State :=
  { accounts := [⟨1, "w", 200, "cash"⟩], transactions := [],
    budgets := [⟨1, 5, 150, 0⟩], expense_category_ids := [5] }

/-- Operation list of the C3 witness run: a 60 expense, a 40 income, then deletion of
the expense row (id 1). -/
def runOps : List Op :=
  [Op.addExpense 5 60 "" 2026 10, Op.addIncome 9 40 "" 2026 10, Op.deleteTx 1]

/-- Witness for C3 at the concrete run. -/
theorem C3_witness :
    balanceOf (applyOps 1 runStartState runOps).accounts 1 =
      some (200 + incomeSum (applyOps 1 runStartState runOps).transactions 1
        - expenseSum (applyOps 1 runStartState runOps).transactions 1) :=
  C3_balance_is_running_sum runOps runStartState 1 200 (by with_unfolding_all rfl) rfl

end BAS
